import Mathlib

/-!
Shallow embedding of the authorization / token / rate-limit / dispatch core of
the LINE garage-door bot (files `core/line_webhook.py`, `core/token_manager.py`,
`core/mqtt_handler.py`, configuration defaults from `config/config_module.py`).

Timestamps and TTLs are modelled as integer seconds (`ℤ`), coordinates,
accuracies and distances as rationals (`ℚ`); Python dicts are modelled as
association lists; a Python function call that would raise an exception is
modelled with `Except PyErr`.  The floating-point haversine
computation itself is not modelled numerically: the location handler is
parametrised by the distance function `distFn lat lng`, standing for
`haversine(lat, lng, PARK_LAT, PARK_LNG)` of `core/line_webhook.py`.
-/

namespace LineBot

/-- A Python exception observable at the boundaries we model. -/
inductive PyErr where
  | typeError
deriving DecidableEq, Repr

/-- A stored token record `(user_id, action, expiry)` as kept in
`core/token_manager.py`'s `TOKENS` dict. -/
abbrev TokenRecord := String × String × ℤ

/-- `d.get(k)` on an association-list model of a Python dict. -/
def dictGet {α : Type} (m : List (String × α)) (k : String) : Option α :=
  match m with
  | [] => none
  | (k', v) :: rest => if k' = k then some v else dictGet rest k

/-- `d.pop(k, None)` / `del d[k]` : removal of a key. -/
def dictErase {α : Type} (m : List (String × α)) (k : String) : List (String × α) :=
  match m with
  | [] => []
  | (k', v) :: rest => if k' = k then dictErase rest k else (k', v) :: dictErase rest k

/-- `d[k] = v` : assignment (overwrites any previous binding). -/
def dictInsert {α : Type} (m : List (String × α)) (k : String) (v : α) :
    List (String × α) :=
  (k, v) :: dictErase m k

/-- Python truthiness of a float (`0.0` is falsy). -/
def pyTruthyNum (e : ℤ) : Bool := decide (e ≠ 0)

/-- Python truthiness test `not s` for an optional string
(`None` and `""` are falsy). -/
def strFalsy : Option String → Bool
  | none => true
  | some s => s == ""

/-- The whole mutable server state of `core/line_webhook.py` +
`core/token_manager.py`: `TOKENS`, `VERIFY_TOKENS`, `authorized_users`,
`rate_limit_store`, `global_rate_limit_store`. -/
structure ServerState where
  tokens : List (String × TokenRecord)
  verifyTokens : List (String × (String × ℤ))
  authorizedUsers : List (String × ℤ)
  rateUsers : List (String × List (ℤ × ℕ))
  rateGlobal : List (ℤ × ℕ)
deriving DecidableEq, Repr

/-- The empty server state (all stores empty, as at process start). -/
def ServerState.empty : ServerState :=
  { tokens := [], verifyTokens := [], authorizedUsers := [],
    rateUsers := [], rateGlobal := [] }

/-- Deployment configuration (`config/config_module.py`): `CACHE_ENABLED`,
`DEBUG_MODE`, `DEBUG_USER_IDS`, `MAX_DIST_KM`, `VERIFY_TTL`, `LOCATION_TTL`. -/
structure Config where
  cacheEnabled : Bool
  debugMode : Bool
  debugUserIds : List String
  maxDistKm : ℚ
  verifyTtl : ℤ
  locationTtl : ℤ
deriving DecidableEq, Repr

/-- `RATE_LIMIT_WINDOW = 60` (`core/line_webhook.py` line 61). -/
def RATE_LIMIT_WINDOW : ℤ := 60

/-- `RATE_LIMIT_MAX = 5` (line 62). -/
def RATE_LIMIT_MAX : ℕ := 5

/-- `GLOBAL_RATE_LIMIT_MAX = 100` (line 63). -/
def GLOBAL_RATE_LIMIT_MAX : ℕ := 100

/-- Sum of the per-entry counts of a rate-limit store
(`sum(count for _, count in store)`). -/
def countSum (l : List (ℤ × ℕ)) : ℕ := (l.map (fun p => p.2)).sum

/-- Keep only entries inside the trailing window
(`current_time - timestamp < RATE_LIMIT_WINDOW`). -/
def pruneWindow (now : ℤ) (l : List (ℤ × ℕ)) : List (ℤ × ℕ) :=
  l.filter (fun p => decide (now - p.1 < RATE_LIMIT_WINDOW))

/-- `is_rate_limited(user_id)` (`core/line_webhook.py` lines 175-209):
prunes the global store, checks the global cap, then prunes the user's store,
checks the per-user cap, and on admission appends `(now, 1)` to both.
Returns the decision together with the updated state. -/
def is_rate_limited (now : ℤ) (user_id : String) (st : ServerState) :
    Bool × ServerState :=
  let g := pruneWindow now st.rateGlobal
  if GLOBAL_RATE_LIMIT_MAX ≤ countSum g then
    (true, { st with rateGlobal := g })
  else
    let u := pruneWindow now ((dictGet st.rateUsers user_id).getD [])
    if RATE_LIMIT_MAX ≤ countSum u then
      (true, { st with rateGlobal := g,
                       rateUsers := dictInsert st.rateUsers user_id u })
    else
      (false, { st with rateGlobal := g ++ [(now, 1)],
                        rateUsers := dictInsert st.rateUsers user_id (u ++ [(now, 1)]) })

/-- The keyword parameters of `core/token_manager.py`'s
`store_action_token(token, user_id, action)` (line 35). -/
def store_action_token_params : List String := ["token", "user_id", "action"]

/-- CPython call semantics: a call is accepted only when every keyword argument
names a parameter of the callee; otherwise it raises `TypeError`. -/
def acceptsKwargs (params kwargs : List String) : Bool :=
  kwargs.all (fun k => params.contains k)

/-- `store_action_token(token, user_id, action)` (`core/token_manager.py`
lines 35-40): stores `(user_id, action, now + VERIFY_TTL)` under `token`. -/
def store_action_token (now verifyTtl : ℤ) (tokens : List (String × TokenRecord))
    (token user_id action : String) : List (String × TokenRecord) :=
  dictInsert tokens token (user_id, action, now + verifyTtl)

/-- `generate_token(user_id)` (`core/token_manager.py` lines 18-32) with the
two freshly drawn URL-safe tokens supplied as arguments: stores both with a
literal 300-second expiry. -/
def generate_token (now : ℤ) (tokens : List (String × TokenRecord))
    (user_id openTok closeTok : String) : List (String × TokenRecord) :=
  dictInsert (dictInsert tokens openTok (user_id, "open", now + 300))
    closeTok (user_id, "close", now + 300)

/-- `store_verify_token(token, user_id)` (`core/line_webhook.py` lines
212-218).  Under `CACHE_ENABLED` it calls
`store_action_token(f"verify:{token}", user_id, "verify", expiry=LOCATION_TTL)`
— a call carrying the keyword argument `expiry`, which
`store_action_token` does not accept, hence `TypeError`.  Otherwise it stores
`(user_id, now + VERIFY_TTL)` in `VERIFY_TOKENS`. -/
def store_verify_token (cfg : Config) (now : ℤ) (st : ServerState)
    (token user_id : String) : Except PyErr ServerState :=
  if cfg.cacheEnabled then
    if acceptsKwargs store_action_token_params ["expiry"] then
      let t := store_action_token now cfg.verifyTtl st.tokens ("verify:" ++ token) user_id "verify"
      .ok { st with tokens := t }
    else .error .typeError
  else
    let v := dictInsert st.verifyTokens token (user_id, now + cfg.verifyTtl)
    .ok { st with verifyTokens := v }

/-- `get_verify_token(token)` (`core/line_webhook.py` lines 221-229).
A pure read: neither backend removes the entry. -/
def get_verify_token (cfg : Config) (st : ServerState) (token : String) :
    Option String × Option ℤ :=
  if cfg.cacheEnabled then
    match dictGet st.tokens ("verify:" ++ token) with
    | some (user_id, _, expiry) => (some user_id, some expiry)
    | none => (none, none)
  else
    match dictGet st.verifyTokens token with
    | some (user_id, expiry) => (some user_id, some expiry)
    | none => (none, none)

/-- `authorize_user(user_id)` (`core/line_webhook.py` lines 232-234).  Under
`CACHE_ENABLED` it calls
`store_action_token(f"auth:{user_id}", user_id, "authorize", expiry=LOCATION_TTL)`
— again an `expiry` keyword the callee does not accept, hence `TypeError`.
Without the cache it does nothing. -/
def authorize_user (cfg : Config) (now : ℤ) (st : ServerState) (user_id : String) :
    Except PyErr ServerState :=
  if cfg.cacheEnabled then
    if acceptsKwargs store_action_token_params ["expiry"] then
      let t := store_action_token now cfg.verifyTtl st.tokens ("auth:" ++ user_id) user_id "authorize"
      .ok { st with tokens := t }
    else .error .typeError
  else .ok st

/-- `is_user_authorized(user_id)` (`core/line_webhook.py` lines 237-247).
The in-memory branch returns `expiry and time.time() < expiry`, so a stored
expiry of `0.0` is falsy. -/
def is_user_authorized (cfg : Config) (now : ℤ) (st : ServerState)
    (user_id : String) : Bool :=
  if cfg.cacheEnabled then
    match dictGet st.tokens ("auth:" ++ user_id) with
    | some (_, _, expiry) => decide (now < expiry)
    | none => false
  else
    match dictGet st.authorizedUsers user_id with
    | some expiry => pyTruthyNum expiry && decide (now < expiry)
    | none => false

/-- `build_open_close_template(user_id)` (`core/line_webhook.py` lines
250-268), state effect only: `generate_token` stores both action tokens
(expiry `now + 300`); under `CACHE_ENABLED`, `store_action_token` then
overwrites each with expiry `now + VERIFY_TTL`. -/
def build_open_close_template (cfg : Config) (now : ℤ) (st : ServerState)
    (user_id openTok closeTok : String) : ServerState :=
  let t := generate_token now st.tokens user_id openTok closeTok
  if cfg.cacheEnabled then
    let t1 := store_action_token now cfg.verifyTtl t openTok user_id "open"
    let t2 := store_action_token now cfg.verifyTtl t1 closeTok user_id "close"
    { st with tokens := t2 }
  else { st with tokens := t }

/-- The JSON body of a location-proof request, after Python's
`isinstance(..., (int, float))` checks: `none` models a missing or
non-numeric field. -/
structure LocData where
  lat : Option ℚ
  lng : Option ℚ
  acc : Option ℚ
deriving DecidableEq, Repr

/-- Outcome of `verify_location_handler` (`core/line_webhook.py` lines
366-422). -/
inductive VerifyResult where
  | invalidToken
  | expiredToken
  | badCoords
  | rateLimited
  | outOfRange
  | authorized
deriving DecidableEq, Repr

/-- HTTP status attached to each `VerifyResult` by the handler. -/
def verifyStatus : VerifyResult → ℕ
  | .invalidToken => 400
  | .expiredToken => 400
  | .badCoords => 400
  | .rateLimited => 429
  | .outOfRange => 200
  | .authorized => 200

/-- The `ok` field of the handler's JSON response. -/
def verifyOk : VerifyResult → Bool
  | .authorized => true
  | _ => false

/-- The expiry guard `if expiry and time.time() > expiry` of
`verify_location_handler` (line 382): a falsy (`0.0`) expiry skips the
check. -/
def expiryElapsed (now : ℤ) : Option ℤ → Bool
  | none => false
  | some e => pyTruthyNum e && decide (now > e)

/-- `verify_location_handler()` (`core/line_webhook.py` lines 366-422).
`distFn lat lng` stands for `haversine(lat, lng, PARK_LAT, PARK_LNG)`;
`openTok`/`closeTok` are the fresh random action tokens drawn inside
`build_open_close_template`.  The returned `Bool` records whether the
action menu was pushed.  Under `CACHE_ENABLED` the success path calls
`authorize_user`, whose `TypeError` propagates (the handler has no
try/except). -/
def verify_location_handler (cfg : Config) (distFn : ℚ → ℚ → ℚ) (now : ℤ)
    (tokenArg : Option String) (data : Option LocData)
    (openTok closeTok : String) (st : ServerState) :
    Except PyErr (VerifyResult × Bool × ServerState) :=
  let uidExp :=
    match tokenArg with
    | none => ((none : Option String), (none : Option ℤ))
    | some t => get_verify_token cfg st t
  if strFalsy tokenArg || strFalsy uidExp.1 then
    .ok (.invalidToken, false, st)
  else
    let user_id := uidExp.1.getD ""
    if expiryElapsed now uidExp.2 then
      .ok (.expiredToken, false, st)
    else
      match data with
      | none => .ok (.badCoords, false, st)
      | some d =>
        if d.lat.isNone || d.lng.isNone then
          .ok (.badCoords, false, st)
        else
          let rl := is_rate_limited now user_id st
          if rl.1 then
            .ok (.rateLimited, false, rl.2)
          else
            let lat := d.lat.getD 0
            let lng := d.lng.getD 0
            let acc := d.acc.getD 999
            let dist := distFn lat lng
            let is_debug_user := cfg.debugMode && cfg.debugUserIds.contains user_id
            if is_debug_user || (decide (dist ≤ cfg.maxDistKm) && decide (acc ≤ 50)) then
              match
                (if cfg.cacheEnabled then authorize_user cfg now rl.2 user_id
                 else
                   let a := dictInsert rl.2.authorizedUsers user_id (now + cfg.locationTtl)
                   .ok { rl.2 with authorizedUsers := a }) with
              | .error e => .error e
              | .ok st2 =>
                .ok (.authorized, true,
                  build_open_close_template cfg now st2 user_id openTok closeTok)
            else
              .ok (.outOfRange, false, rl.2)

/-- `MAX_RETRIES = 3` (`core/mqtt_handler.py` line 22). -/
def MAX_RETRIES : ℕ := 3

/-- The diagnostic error string built after the last failed attempt
(`core/mqtt_handler.py` lines 125-128), with the exception text elided. -/
def mqttFailureMsg : String := "Failed to send MQTT command after 3 attempts"

/-- The attempt loop of `send_garage_command` (`core/mqtt_handler.py` lines
83-131): `outcome i` is whether the connect-publish-acknowledge sequence of
attempt `i` (1-based) succeeds; every transport exception of an attempt is
caught by the `except` clause.  Returns `((success, error), attempts made)`.
The fuel-exhausted branch mirrors the unreachable
`return False, "Unknown error occurred"` at line 138. -/
def sendAttempts (outcome : ℕ → Bool) : ℕ → ℕ → (Bool × Option String) × ℕ
  | _, 0 => ((false, some "Unknown error occurred"), MAX_RETRIES)
  | attempt, fuel + 1 =>
    if outcome attempt then ((true, none), attempt)
    else if attempt < MAX_RETRIES then sendAttempts outcome (attempt + 1) fuel
    else ((false, some mqttFailureMsg), attempt)

/-- `send_garage_command(action)` (`core/mqtt_handler.py` lines 70-138):
up to `MAX_RETRIES` attempts starting at attempt 1. -/
def send_garage_command (outcome : ℕ → Bool) : (Bool × Option String) × ℕ :=
  sendAttempts outcome 1 MAX_RETRIES

/-- Outcome of `handle_postback` (`core/line_webhook.py` lines 461-520). -/
inductive PostbackResult where
  /-- unauthorized sender: `send_verification_message` replies with a fresh
  verification URL (lines 463-464) -/
  | challenge
  /-- no stored record for the postback token: reply `無效操作` (lines 469-476) -/
  | invalidOp
  /-- user mismatch or expired token: reply `此操作已失效` (lines 482-488) -/
  | staleOp
  /-- dispatcher succeeded; success reply (lines 509-517) -/
  | dispatchOk (action : String)
  /-- dispatcher failed three times; failure reply (lines 498-507) -/
  | dispatchFail
deriving DecidableEq, Repr

/-- The `for attempt in range(3)` retry loop around `send_garage_command`
(`core/line_webhook.py` lines 491-507): `sendOutcome i` is the success of the
`i`-th dispatcher call (0-based).  Returns (success, number of calls). -/
def dispatchLoop (sendOutcome : ℕ → Bool) : Bool × ℕ :=
  if sendOutcome 0 then (true, 1)
  else if sendOutcome 1 then (true, 2)
  else if sendOutcome 2 then (true, 3)
  else (false, 3)

/-- `send_verification_message(user_id, reply_token)` (`core/line_webhook.py`
lines 293-308), state effect only: stores the fresh verification token (which
raises `TypeError` under `CACHE_ENABLED`, see `store_verify_token`). -/
def send_verification_message (cfg : Config) (now : ℤ) (st : ServerState)
    (user_id freshTok : String) : Except PyErr ServerState :=
  store_verify_token cfg now st freshTok user_id

/-- `handle_postback(event)` (`core/line_webhook.py` lines 461-520).
`sender` is `event.source.user_id`, `tokenData` is `event.postback.data`,
`freshTok` the random token drawn if a verification challenge is sent, and
`sendOutcome` the behaviour of the dispatcher calls.  The middle `ℕ` of the
result counts the `send_garage_command` invocations.  The unauthorized branch
runs before the `try`, so a `TypeError` there propagates. -/
def handle_postback (cfg : Config) (now : ℤ) (sendOutcome : ℕ → Bool)
    (sender tokenData freshTok : String) (st : ServerState) :
    Except PyErr (PostbackResult × ℕ × ServerState) :=
  if !(is_user_authorized cfg now st sender) then
    match send_verification_message cfg now st sender freshTok with
    | .error e => .error e
    | .ok st' => .ok (.challenge, 0, st')
  else
    match dictGet st.tokens tokenData with
    | none => .ok (.invalidOp, 0, st)
    | some (token_user_id, action, expiry) =>
      let st' := { st with tokens := dictErase st.tokens tokenData }
      if sender != token_user_id || decide (now > expiry) then
        .ok (.staleOp, 0, st')
      else
        match dispatchLoop sendOutcome with
        | (true, n) => .ok (.dispatchOk action, n, st')
        | (false, n) => .ok (.dispatchFail, n, st')

/-!
Interleaving model of the token-consumption critical section of
`handle_postback`.  Lines 468 (`record = TOKENS.get(token)`) and 479
(`TOKENS.pop(token, None)`) are two separate dict operations on the shared
`TOKENS` dict with no lock held in between; each single dict operation is
atomic (GIL), the pair is not.  A thread is a program counter over the two
steps together with the record its `get` obtained.
-/

/-- One concurrent `handle_postback` caller inside the get/pop section:
`pc = 0` before the `get`, `1` before the `pop`, `2` after. -/
structure RaceThread where
  pc : ℕ
  obtained : Option TokenRecord
deriving DecidableEq, Repr

/-- A thread at the start of the critical section. -/
def RaceThread.start : RaceThread := { pc := 0, obtained := none }

/-- Execute one atomic dict operation of a thread: its `TOKENS.get(token)`
(line 468) or its `TOKENS.pop(token, None)` (line 479). -/
def threadStep (key : String) (m : List (String × TokenRecord))
    (t : RaceThread) : List (String × TokenRecord) × RaceThread :=
  match t.pc with
  | 0 => (m, { pc := 1, obtained := dictGet m key })
  | 1 => (dictErase m key, { t with pc := 2 })
  | _ => (m, t)

/-- Run two concurrent callers of the critical section under a schedule
(`true` = thread 1 moves, `false` = thread 2 moves), from a shared `TOKENS`
dict.  Returns both threads and the final dict. -/
def runRace (key : String) : List Bool → List (String × TokenRecord) →
    RaceThread → RaceThread → RaceThread × RaceThread × List (String × TokenRecord)
  | [], m, t1, t2 => (t1, t2, m)
  | b :: rest, m, t1, t2 =>
    if b then
      let s := threadStep key m t1
      runRace key rest s.1 s.2 t2
    else
      let s := threadStep key m t2
      runRace key rest s.1 t1 s.2

/-- What a `handle_postback` caller does with the record its `get` obtained
(lines 469-491): with no record it replies `無效操作`; with a record it
proceeds to dispatch iff the bound user matches the sender and the token is
unexpired. -/
def postbackProceeds (sender : String) (now : ℤ) : Option TokenRecord → Bool
  | none => false
  | some (token_user_id, _, expiry) =>
    sender == token_user_id && !(decide (now > expiry))

/-! Concrete deployment configurations and scenario states used to settle the
claims on explicit inputs.  `MAX_DIST_KM` defaults to `0.5` km, the TTLs to
300 s (`config/config_module.py`). -/

/-- In-memory backend, debug off. -/
def cfgMemory : Config := ⟨false, false, [], mkRat 1 2, 300, 300⟩

/-- Cached backend (`CACHE_ENABLED=true`), debug off. -/
def cfgCached : Config := ⟨true, false, [], mkRat 1 2, 300, 300⟩

/-- In-memory backend, `DEBUG_MODE=true` with debug user `"U"`. -/
def cfgDebugMemory : Config := ⟨false, true, ["U"], mkRat 1 2, 300, 300⟩

/-- Cached backend, `DEBUG_MODE=true` with debug user `"U"`. -/
def cfgDebugCached : Config := ⟨true, true, ["U"], mkRat 1 2, 300, 300⟩

/-- A well-formed location payload at the gate (`acc = 5`). -/
def dataInRange : Option LocData := some ⟨some 0, some 0, some 5⟩

/-- Projection of a handler result to its `VerifyResult`. -/
def verifyOutcome : Except PyErr (VerifyResult × Bool × ServerState) →
    Option VerifyResult
  | .ok (r, _, _) => some r
  | .error _ => none

/-- Projection of a handler result to its final server state. -/
def stateOf (r : Except PyErr (VerifyResult × Bool × ServerState))
    (dflt : ServerState) : ServerState :=
  match r with
  | .ok (_, _, s) => s
  | .error _ => dflt

/-- State holding one verification token `T` for user `U`, expiring at 1000. -/
def c2Initial : ServerState :=
  { ServerState.empty with verifyTokens := [("T", ("U", 1000))] }

/-- The state after a first successful location-proof request that presented
token `T` at time 10. -/
def c2After : ServerState :=
  stateOf (verify_location_handler cfgMemory (fun _ _ => 0) 10 (some "T")
    dataInRange "o1" "c1" c2Initial) c2Initial

/-- A `TOKENS` dict holding one action token `A` bound to user `U`. -/
def c1Tokens : List (String × TokenRecord) := [("A", ("U", "open", 100))]

/-- Two concurrent redeemers of `A`, schedule: thread 1 `get`, thread 2 `get`,
thread 1 `pop`, thread 2 `pop`. -/
def c1Race : RaceThread × RaceThread × List (String × TokenRecord) :=
  runRace "A" [true, false, true, false] c1Tokens .start .start

/-- Authorized user `V` holding someone else's action token in the store:
`A` is bound to `U`. -/
def c6State : ServerState :=
  { ServerState.empty with
      authorizedUsers := [("V", 100)]
      tokens := [("A", ("U", "open", 1000))] }

/-- The rate-limiter state after `n` consecutive `is_rate_limited` calls for
`user_id` at time `t`, starting from the empty state. -/
def rateAfterCalls (user_id : String) (t : ℤ) : ℕ → ServerState
  | 0 => ServerState.empty
  | n + 1 => (is_rate_limited t user_id (rateAfterCalls user_id t n)).2

/-- The state written back by `is_rate_limited` on admission: the event
`(now, 1)` is appended to both the pruned per-user store and the pruned
global store (lines 205-207). -/
def recordAdmission (now : ℤ) (user_id : String) (st : ServerState) : ServerState :=
  { st with
      rateGlobal := pruneWindow now st.rateGlobal ++ [(now, 1)]
      rateUsers := dictInsert st.rateUsers user_id
        (pruneWindow now ((dictGet st.rateUsers user_id).getD []) ++ [(now, 1)]) }

/-- The session entry written on a successful in-memory location check:
`authorized_users[user_id] = time.time() + LOCATION_TTL` (line 413). -/
def withAuthorizedUser (st : ServerState) (user_id : String) (e : ℤ) : ServerState :=
  { st with authorizedUsers := dictInsert st.authorizedUsers user_id e }

/-- A distance function placing every submitted point exactly at the
0.5 km geofence radius. -/
def distHalf : ℚ → ℚ → ℚ := fun _ _ => mkRat 1 2

/-- A distance function placing every submitted point at 1 km, outside the
0.5 km geofence radius. -/
def distOne : ℚ → ℚ → ℚ := fun _ _ => 1

/-- An out-of-range, low-precision payload: 1 km away with accuracy 999 m. -/
def dataFar : Option LocData := some ⟨some 25, some 121, some 999⟩

/-- Cached-backend state holding the verification token `T` for user `U`
under the `verify:` key prefix. -/
def c10State : ServerState :=
  { ServerState.empty with tokens := [("verify:T", ("U", "verify", 1000))] }

end LineBot

namespace LineBot

/-- Helper: the window prune keeps an event made at the same instant. -/
theorem pruneWindow_same_time (t : ℤ) (n : ℕ) :
    pruneWindow t (List.replicate n (t, 1)) = List.replicate n (t, 1) := by
  refine List.filter_eq_self.mpr (fun a ha => ?_)
  rw [List.eq_of_mem_replicate ha]
  simp [RATE_LIMIT_WINDOW]

/-- Helper: pruning a block of events all stamped `t` from the viewpoint of
time `t'` keeps all of them inside the window and drops all of them
outside it. -/
theorem pruneWindow_replicate (t' t : ℤ) (n : ℕ) :
    pruneWindow t' (List.replicate n (t, 1)) =
      if t' - t < RATE_LIMIT_WINDOW then List.replicate n (t, 1) else [] := by
  by_cases h : t' - t < RATE_LIMIT_WINDOW
  · rw [if_pos h]
    refine List.filter_eq_self.mpr (fun a ha => ?_)
    rw [List.eq_of_mem_replicate ha]
    simpa using h
  · rw [if_neg h]
    refine List.filter_eq_nil_iff.mpr (fun a ha => ?_)
    rw [List.eq_of_mem_replicate ha]
    simpa using h

/-- Helper: the count of a block of unit events is its length. -/
theorem countSum_replicate (t : ℤ) (n : ℕ) :
    countSum (List.replicate n (t, 1)) = n := by
  simp [countSum, List.map_replicate, List.sum_replicate, smul_eq_mul]

/-- Helper: the first `n ≤ 5` rate-limiter calls for one user at one instant
are all admitted, leaving `n` unit events under both counters. -/
theorem rateAfterCalls_le_five (user_id : String) (t : ℤ) :
    ∀ n, n ≤ 5 →
      rateAfterCalls user_id t n =
        { ServerState.empty with
            rateUsers :=
              if n = 0 then [] else [(user_id, List.replicate n (t, 1))]
            rateGlobal := List.replicate n (t, 1) } := by
  intro n
  induction n with
  | zero => intro _; rfl
  | succ n ih =>
    intro hn
    have hn' : n ≤ 5 := Nat.le_of_succ_le hn
    have hn4 : n ≤ 4 := Nat.lt_succ_iff.mp hn
    rw [show rateAfterCalls user_id t (n + 1) =
      (is_rate_limited t user_id (rateAfterCalls user_id t n)).2 from rfl, ih hn']
    rcases Nat.eq_zero_or_pos n with h0 | hpos
    · subst h0
      simp [is_rate_limited, ServerState.empty, pruneWindow_same_time,
        countSum_replicate, GLOBAL_RATE_LIMIT_MAX, RATE_LIMIT_MAX, dictGet,
        dictInsert, dictErase, pruneWindow, countSum]
    · have hne : n ≠ 0 := Nat.pos_iff_ne_zero.mp hpos
      have hgNeg : ¬(GLOBAL_RATE_LIMIT_MAX ≤ countSum (List.replicate n ((t : ℤ), 1))) := by
        rw [countSum_replicate]
        unfold GLOBAL_RATE_LIMIT_MAX
        omega
      have huNeg : ¬(RATE_LIMIT_MAX ≤ countSum (List.replicate n ((t : ℤ), 1))) := by
        rw [countSum_replicate]
        unfold RATE_LIMIT_MAX
        omega
      simp only [is_rate_limited, if_neg hne, pruneWindow_same_time, dictGet,
        eq_self_iff_true, if_true, Option.getD_some, if_neg hgNeg, if_neg huNeg]
      simp [dictInsert, dictErase, ← List.replicate_succ', Nat.succ_ne_zero]

/-- C5: `is_rate_limited` admits (returns `False`) iff, after pruning
entries older than the 60-second window, the global count is below
`GLOBAL_RATE_LIMIT_MAX = 100` and the user's count is below
`RATE_LIMIT_MAX = 5`; on admission the event is recorded under both
counters.  Consequently, after exactly 5 admissions for one user at time
`t`, a further request at time `t'` is denied iff `t' - t < 60`: denied
inside the window, admitted again once the window has elapsed. -/
theorem c5_rate_limiter_contract :
    (∀ (now : ℤ) (user_id : String) (st : ServerState),
      ((is_rate_limited now user_id st).1 = false ↔
        countSum (pruneWindow now st.rateGlobal) < GLOBAL_RATE_LIMIT_MAX ∧
        countSum (pruneWindow now ((dictGet st.rateUsers user_id).getD [])) <
          RATE_LIMIT_MAX) ∧
      ((is_rate_limited now user_id st).1 = false →
        (is_rate_limited now user_id st).2 = recordAdmission now user_id st)) ∧
    (∀ (user_id : String) (t t' : ℤ),
      (is_rate_limited t' user_id (rateAfterCalls user_id t 5)).1 =
        decide (t' - t < RATE_LIMIT_WINDOW)) := by
  constructor
  · intro now user_id st
    constructor
    · by_cases hg : GLOBAL_RATE_LIMIT_MAX ≤ countSum (pruneWindow now st.rateGlobal)
      · simp only [is_rate_limited, if_pos hg]
        constructor
        · intro h; exact absurd h (by simp)
        · intro h; exact absurd h.1 (by omega)
      · by_cases hu : RATE_LIMIT_MAX ≤
            countSum (pruneWindow now ((dictGet st.rateUsers user_id).getD []))
        · simp only [is_rate_limited, if_neg hg, if_pos hu]
          constructor
          · intro h; exact absurd h (by simp)
          · intro h; exact absurd h.2 (by omega)
        · simp only [is_rate_limited, if_neg hg, if_neg hu]
          constructor
          · intro _; omega
          · intro _; trivial
    · intro h
      by_cases hg : GLOBAL_RATE_LIMIT_MAX ≤ countSum (pruneWindow now st.rateGlobal)
      · simp [is_rate_limited, if_pos hg] at h
      · by_cases hu : RATE_LIMIT_MAX ≤
            countSum (pruneWindow now ((dictGet st.rateUsers user_id).getD []))
        · simp [is_rate_limited, if_neg hg, if_pos hu] at h
        · simp only [is_rate_limited, if_neg hg, if_neg hu]
          rfl
  · intro user_id t t'
    rw [rateAfterCalls_le_five user_id t 5 (by omega)]
    by_cases h : t' - t < RATE_LIMIT_WINDOW
    · simp only [is_rate_limited, pruneWindow_replicate, if_pos h,
        if_neg (show ¬(5 = 0) by decide), dictGet, eq_self_iff_true, if_true,
        Option.getD_some]
      rw [if_neg (by rw [countSum_replicate]; decide)]
      rw [if_pos (by rw [countSum_replicate]; decide)]
      simp [h]
    · simp only [is_rate_limited, pruneWindow_replicate, if_neg h,
        if_neg (show ¬(5 = 0) by decide), dictGet, eq_self_iff_true, if_true,
        Option.getD_some]
      rw [if_neg (by decide : ¬(GLOBAL_RATE_LIMIT_MAX ≤ countSum ([] : List (ℤ × ℕ))))]
      rw [if_neg (by decide : ¬(RATE_LIMIT_MAX ≤ countSum ([] : List (ℤ × ℕ))))]
      simp [h]

/-- Witness for C5: from the empty state, the first call at time 0 is
admitted and recorded under both counters; after 5 admissions at time 0 a
6th call at time 30 (inside the window) is denied, and a call at time 60
(window elapsed) is admitted again. -/
theorem c5_rate_limiter_contract_witness :
    (is_rate_limited 0 "u" ServerState.empty).1 = false ∧
    (is_rate_limited 0 "u" ServerState.empty).2 = recordAdmission 0 "u" ServerState.empty ∧
    (is_rate_limited 30 "u" (rateAfterCalls "u" 0 5)).1 = true ∧
    (is_rate_limited 60 "u" (rateAfterCalls "u" 0 5)).1 = false :=
  ⟨by decide,
   (c5_rate_limiter_contract.1 0 "u" ServerState.empty).2 (by decide),
   (c5_rate_limiter_contract.2 "u" 0 30).trans (by decide),
   (c5_rate_limiter_contract.2 "u" 0 60).trans (by decide)⟩

/-- C4: `send_garage_command` returns `(True, None)` on the first attempt
whose connect-publish-acknowledge sequence succeeds (succeeding on attempt
1, 2 or 3 after the earlier ones failed yields success with exactly that many
attempts); when every attempt fails it returns `(False, diagnostic string)`
after exactly `MAX_RETRIES = 3` attempts; the attempt loop catches every
transport exception, so the function always returns a pair. -/
theorem c4_send_garage_command_retry_contract (outcome : ℕ → Bool) :
    (outcome 1 = true → send_garage_command outcome = ((true, none), 1)) ∧
    (outcome 1 = false → outcome 2 = true →
      send_garage_command outcome = ((true, none), 2)) ∧
    (outcome 1 = false → outcome 2 = false → outcome 3 = true →
      send_garage_command outcome = ((true, none), 3)) ∧
    (outcome 1 = false → outcome 2 = false → outcome 3 = false →
      send_garage_command outcome = ((false, some mqttFailureMsg), MAX_RETRIES)) := by
  refine ⟨fun h1 => ?_, fun h1 h2 => ?_, fun h1 h2 h3 => ?_, fun h1 h2 h3 => ?_⟩
  · simp [send_garage_command, sendAttempts, MAX_RETRIES, h1]
  · simp [send_garage_command, sendAttempts, MAX_RETRIES, h1, h2]
  · simp [send_garage_command, sendAttempts, MAX_RETRIES, h1, h2, h3]
  · simp [send_garage_command, sendAttempts, MAX_RETRIES, h1, h2, h3]

/-- Witness for C4: a transport failing its first two attempts and succeeding
on the third yields success after exactly 3 attempts; an always-failing
transport yields failure after exactly 3 attempts. -/
theorem c4_send_garage_command_retry_contract_witness :
    send_garage_command (fun i => i == 3) = ((true, none), 3) ∧
    send_garage_command (fun _ => false) = ((false, some mqttFailureMsg), MAX_RETRIES) :=
  ⟨(c4_send_garage_command_retry_contract (fun i => i == 3)).2.2.1 rfl rfl rfl,
   (c4_send_garage_command_retry_contract (fun _ => false)).2.2.2 rfl rfl rfl⟩

/-- C9: under the cached backend (`CACHE_ENABLED=true`), every call to
`store_verify_token` and every call to `authorize_user` raises `TypeError`,
because both pass the keyword argument `expiry` to
`core.token_manager.store_action_token`, whose parameters are only
`(token, user_id, action)`. -/
theorem c9_cached_store_paths_raise_type_error (cfg : Config) (now : ℤ)
    (st : ServerState) (token user_id : String)
    (h : cfg.cacheEnabled = true) :
    store_verify_token cfg now st token user_id = .error .typeError ∧
    authorize_user cfg now st user_id = .error .typeError := by
  constructor <;>
    simp [store_verify_token, authorize_user, h, acceptsKwargs,
      store_action_token_params]

/-- Witness for C9 at the cached configuration. -/
theorem c9_cached_store_paths_raise_type_error_witness :
    cfgCached.cacheEnabled = true ∧
    store_verify_token cfgCached 0 ServerState.empty "t" "u" = .error .typeError ∧
    authorize_user cfgCached 0 ServerState.empty "u" = .error .typeError :=
  ⟨rfl,
   c9_cached_store_paths_raise_type_error cfgCached 0 ServerState.empty "t" "u" rfl⟩

/-- C6: with an authorized sender, a stored action token whose bound user
differs from the sender (or which is expired) is consumed and answered with
the invalid-operation reply; the dispatcher is invoked zero times and no
exception escapes. -/
theorem c6_action_token_user_binding (cfg : Config) (now : ℤ)
    (sendOutcome : ℕ → Bool) (sender tokenData freshTok : String)
    (token_user_id action : String) (expiry : ℤ) (st : ServerState)
    (hAuth : is_user_authorized cfg now st sender = true)
    (hTok : dictGet st.tokens tokenData = some (token_user_id, action, expiry))
    (hBad : sender ≠ token_user_id ∨ now > expiry) :
    handle_postback cfg now sendOutcome sender tokenData freshTok st =
      .ok (.staleOp, 0, { st with tokens := dictErase st.tokens tokenData }) := by
  have hb : (sender != token_user_id || decide (now > expiry)) = true := by
    rcases hBad with h | h
    · simp [bne_iff_ne, h]
    · simp [h]
  simp [handle_postback, hAuth, hTok, hb]

/-- Witness for C6: sender `V` is authorized but presents a token minted for
`U`; the reply is the invalid-operation rejection, with zero dispatches. -/
theorem c6_action_token_user_binding_witness :
    (is_user_authorized cfgMemory 10 c6State "V" = true ∧ "V" ≠ "U") ∧
    handle_postback cfgMemory 10 (fun _ => true) "V" "A" "F" c6State =
      .ok (.staleOp, 0, { c6State with tokens := dictErase c6State.tokens "A" }) :=
  ⟨⟨by decide, by decide⟩,
   c6_action_token_user_binding cfgMemory 10 (fun _ => true) "V" "A" "F"
     "U" "open" 1000 c6State (by decide) (by decide) (Or.inl (by decide))⟩

/-- C7: a location-proof request whose verification token resolves to a
record with (nonzero) expiry earlier than the current time is rejected with
the 400-class expired response before any location data is examined: the
result is the same for every request body, and the state is untouched. -/
theorem c7_expired_token_rejected_before_location (cfg : Config)
    (distFn : ℚ → ℚ → ℚ) (now : ℤ) (token user_id : String) (expiry : ℤ)
    (st : ServerState) (openTok closeTok : String)
    (hGet : get_verify_token cfg st token = (some user_id, some expiry))
    (hTok : (token == "") = false) (hUid : (user_id == "") = false)
    (hNz : expiry ≠ 0) (hExp : now > expiry) :
    ∀ data : Option LocData,
      verify_location_handler cfg distFn now (some token) data openTok closeTok st =
        .ok (.expiredToken, false, st) := by
  intro data
  simp [verify_location_handler, hGet, strFalsy, hTok, hUid, expiryElapsed,
    pyTruthyNum, hNz, hExp]

/-- Witness for C7: token `T` expired at 100, request arrives at 200 with
in-geofence coordinates and is still rejected 400-expired. -/
theorem c7_expired_token_rejected_before_location_witness :
    (get_verify_token cfgMemory
        { ServerState.empty with verifyTokens := [("T", ("U", 100))] } "T" =
        (some "U", some 100) ∧ (100 : ℤ) ≠ 0 ∧ (200 : ℤ) > 100) ∧
    verify_location_handler cfgMemory (fun _ _ => 0) 200 (some "T") dataInRange
        "o1" "c1" { ServerState.empty with verifyTokens := [("T", ("U", 100))] } =
      .ok (.expiredToken, false,
        { ServerState.empty with verifyTokens := [("T", ("U", 100))] }) :=
  ⟨⟨by decide, by decide, by decide⟩,
   c7_expired_token_rejected_before_location cfgMemory (fun _ _ => 0) 200 "T"
     "U" 100 _ "o1" "c1" (by decide) (by decide) (by decide) (by decide)
     (by decide) dataInRange⟩

/-- C8 (counterexample): under the cached backend, a postback from an
unauthorized sender does not issue a verification challenge — the challenge
path raises `TypeError` (from `store_verify_token`'s bad keyword call), so
the claim's "issues a fresh verification challenge" fails as stated. -/
theorem c8_unauthorized_challenge_fails_cached :
    is_user_authorized cfgCached 0 ServerState.empty "U" = false ∧
    handle_postback cfgCached 0 (fun _ => false) "U" "A" "F" ServerState.empty =
      .error .typeError :=
  ⟨rfl, rfl⟩

/-- C8 (amended): `handle_postback` never invokes `send_garage_command` for an
unauthorized sender; with `CACHE_ENABLED=false` it issues a fresh verification
challenge (storing the new verification token) with zero dispatches, and with
`CACHE_ENABLED=true` the challenge attempt raises `TypeError`, still with zero
dispatches. -/
theorem c8_unauthorized_sender_never_dispatches (cfg : Config) (now : ℤ)
    (sendOutcome : ℕ → Bool) (sender tokenData freshTok : String)
    (st : ServerState)
    (hAuth : is_user_authorized cfg now st sender = false) :
    handle_postback cfg now sendOutcome sender tokenData freshTok st =
      (if cfg.cacheEnabled then .error .typeError
       else
         .ok (.challenge, 0,
           { st with verifyTokens := dictInsert st.verifyTokens freshTok (sender, now + cfg.verifyTtl) })) := by
  cases hc : cfg.cacheEnabled <;>
    simp [handle_postback, hAuth, send_verification_message, store_verify_token,
      hc, acceptsKwargs, store_action_token_params]

/-- Witness for C8 (amended), in-memory backend: the unauthorized sender gets
the challenge and no dispatch happens. -/
theorem c8_unauthorized_sender_never_dispatches_witness :
    is_user_authorized cfgMemory 0 ServerState.empty "U" = false ∧
    handle_postback cfgMemory 0 (fun _ => false) "U" "A" "F" ServerState.empty =
      (if cfgMemory.cacheEnabled then .error .typeError
       else
         .ok (.challenge, 0,
           { ServerState.empty with verifyTokens := dictInsert ServerState.empty.verifyTokens "F" ("U", 0 + cfgMemory.verifyTtl) })) :=
  ⟨by decide,
   c8_unauthorized_sender_never_dispatches cfgMemory 0 (fun _ => false) "U" "A"
     "F" ServerState.empty (by decide)⟩

/-- C1: the token-consumption section of `handle_postback` is
`TOKENS.get(token)` (line 468) followed by `TOKENS.pop(token, None)`
(line 479) with no lock in between, so under two concurrent redemptions of
the same action token both callers can obtain the stored record and both
proceed toward dispatch: with the interleaving get₁, get₂, pop₁, pop₂, both
threads obtain `(U, open, 100)` and `postbackProceeds` holds for both —
refuting "exactly one caller obtains the stored record".  (Subsequent,
sequential callers do observe not-found: the final dict is empty.) -/
theorem c1_concurrent_redemption_not_atomic :
    c1Race.1.obtained = some ("U", "open", 100) ∧
    c1Race.2.1.obtained = some ("U", "open", 100) ∧
    postbackProceeds "U" 50 c1Race.1.obtained = true ∧
    postbackProceeds "U" 50 c1Race.2.1.obtained = true ∧
    c1Race.2.2 = [] := by
  refine ⟨?_, ?_, ?_, ?_, ?_⟩ <;> decide

/-- C2: in `core/line_webhook.py`, `get_verify_token` only reads the store
(`TOKENS.get` / `VERIFY_TOKENS.get`, no `pop`), so a verification token is
not consumed by its first use: the first location-proof request with token
`T` succeeds, the entry for `T` is still stored afterwards, and a second
request presenting the same `T` succeeds again instead of being rejected
as not found. -/
theorem c2_verify_token_not_consumed :
    verifyOutcome (verify_location_handler cfgMemory (fun _ _ => 0) 10
      (some "T") dataInRange "o1" "c1" c2Initial) = some .authorized ∧
    dictGet c2After.verifyTokens "T" = some ("U", 1000) ∧
    verifyOutcome (verify_location_handler cfgMemory (fun _ _ => 0) 20
      (some "T") dataInRange "o2" "c2" c2After) = some .authorized :=
  ⟨rfl, rfl, rfl⟩

/-- C3 (counterexample): with `DEBUG_MODE=true` and the requester in
`DEBUG_USER_IDS`, a request whose distance (1 km) exceeds `MAX_DIST_KM`
(0.5 km) and whose accuracy (999 m) exceeds the 50 m threshold is still
accepted, so "accepted iff distance ≤ MAX_DIST_KM and accuracy ≤ 50" fails
as stated. -/
theorem c3_debug_bypass_breaks_accept_iff :
    verifyOutcome (verify_location_handler cfgDebugMemory distOne 10 (some "T")
      dataFar "o1" "c1" c2Initial) = some .authorized ∧
    ¬(distOne 25 121 ≤ cfgDebugMemory.maxDistKm) ∧ ¬((999 : ℚ) ≤ 50) :=
  ⟨rfl, by decide, by decide⟩

/-- C3 (amended): for a location-proof request with a valid unexpired token,
numeric coordinates and no rate limiting, when `CACHE_ENABLED` is false and
the debug bypass does not apply, the request is accepted (200 ok, session
recorded, action menu pushed) iff
`distFn lat lng ≤ MAX_DIST_KM` and `acc ≤ 50`, and otherwise rejected with
the 200 `{ok:false}` out-of-range response; both comparisons are inclusive,
so a point at exactly `MAX_DIST_KM` is accepted and any farther point is
rejected. -/
theorem c3_geofence_accept_iff (cfg : Config) (distFn : ℚ → ℚ → ℚ) (now : ℤ)
    (token user_id : String) (expiry : ℤ) (lat lng acc : ℚ) (st : ServerState)
    (openTok closeTok : String)
    (hCache : cfg.cacheEnabled = false)
    (hDebug : (cfg.debugMode && cfg.debugUserIds.contains user_id) = false)
    (hGet : dictGet st.verifyTokens token = some (user_id, expiry))
    (hTok : (token == "") = false)
    (hUid : (user_id == "") = false)
    (hExp : now ≤ expiry)
    (hRate : (is_rate_limited now user_id st).1 = false) :
    verify_location_handler cfg distFn now (some token)
        (some ⟨some lat, some lng, some acc⟩) openTok closeTok st =
      (if decide (distFn lat lng ≤ cfg.maxDistKm) && decide (acc ≤ 50) then
        .ok (.authorized, true,
          build_open_close_template cfg now
            (withAuthorizedUser (is_rate_limited now user_id st).2 user_id (now + cfg.locationTtl))
            user_id openTok closeTok)
      else .ok (.outOfRange, false, (is_rate_limited now user_id st).2)) := by
  have hngt : ¬(now > expiry) := not_lt.mpr hExp
  have hDebug2 : cfg.debugMode = true → user_id ∉ cfg.debugUserIds := by
    intro hd
    simpa [hd] using hDebug
  cases hc : (decide (distFn lat lng ≤ cfg.maxDistKm) && decide (acc ≤ 50)) with
  | false =>
    simp [verify_location_handler, get_verify_token, hCache, hGet, strFalsy,
      hTok, hUid, expiryElapsed, pyTruthyNum, hngt, hRate, hDebug,
      withAuthorizedUser, hc]
    exact hDebug2
  | true =>
    simp [verify_location_handler, get_verify_token, hCache, hGet, strFalsy,
      hTok, hUid, expiryElapsed, pyTruthyNum, hngt, hRate, hDebug, hDebug2,
      withAuthorizedUser, hc]

/-- Witness for C3 (amended): a point at distance exactly `MAX_DIST_KM` with
accuracy exactly 50 is accepted; a point at 1 km (beyond the 0.5 km radius)
is rejected with the out-of-range response. -/
theorem c3_geofence_accept_iff_witness :
    verify_location_handler cfgMemory distHalf 10 (some "T")
        (some ⟨some 0, some 0, some 50⟩) "o1" "c1" c2Initial =
      .ok (.authorized, true,
        build_open_close_template cfgMemory 10
          (withAuthorizedUser (is_rate_limited 10 "U" c2Initial).2 "U" (10 + cfgMemory.locationTtl))
          "U" "o1" "c1") ∧
    verify_location_handler cfgMemory distOne 10 (some "T") dataInRange "o1"
        "c1" c2Initial =
      .ok (.outOfRange, false, (is_rate_limited 10 "U" c2Initial).2) :=
  ⟨(c3_geofence_accept_iff cfgMemory distHalf 10 "T" "U" 1000 0 0 50 c2Initial
      "o1" "c1" rfl rfl (by decide) (by decide) (by decide) (by decide)
      (by decide)).trans rfl,
   (c3_geofence_accept_iff cfgMemory distOne 10 "T" "U" 1000 0 0 5 c2Initial
      "o1" "c1" rfl rfl (by decide) (by decide) (by decide) (by decide)
      (by decide)).trans rfl⟩

/-- C10 (counterexample): under the cached backend
(`CACHE_ENABLED=true`), a debug user's location-proof request does not
return 200 `{ok:true}` — the success path calls `authorize_user`, which
raises `TypeError`, so the claim fails as stated for the cached backend. -/
theorem c10_debug_bypass_raises_under_cache :
    (cfgDebugCached.debugMode = true ∧
      cfgDebugCached.debugUserIds.contains "U" = true ∧
      cfgDebugCached.cacheEnabled = true) ∧
    verify_location_handler cfgDebugCached distOne 10 (some "T") dataInRange
        "o1" "c1" c10State = .error .typeError :=
  ⟨⟨rfl, rfl, rfl⟩, rfl⟩

/-- C10 (amended): when `CACHE_ENABLED` is false, `DEBUG_MODE` is true and
the requesting user is in `DEBUG_USER_IDS`, a location-proof request with a
valid unexpired token, numeric coordinates and no rate limiting returns 200
`{ok:true}`, records the session and pushes the action menu, for every
distance function and every accuracy value — the distance and accuracy
checks are bypassed entirely. -/
theorem c10_debug_bypass_authorizes (cfg : Config) (distFn : ℚ → ℚ → ℚ)
    (now : ℤ) (token user_id : String) (expiry : ℤ) (lat lng acc : ℚ)
    (st : ServerState) (openTok closeTok : String)
    (hCache : cfg.cacheEnabled = false)
    (hDbg : cfg.debugMode = true)
    (hMem : cfg.debugUserIds.contains user_id = true)
    (hGet : dictGet st.verifyTokens token = some (user_id, expiry))
    (hTok : (token == "") = false)
    (hUid : (user_id == "") = false)
    (hExp : now ≤ expiry)
    (hRate : (is_rate_limited now user_id st).1 = false) :
    verify_location_handler cfg distFn now (some token)
        (some ⟨some lat, some lng, some acc⟩) openTok closeTok st =
      .ok (.authorized, true,
        build_open_close_template cfg now
          (withAuthorizedUser (is_rate_limited now user_id st).2 user_id (now + cfg.locationTtl))
          user_id openTok closeTok) := by
  have hngt : ¬(now > expiry) := not_lt.mpr hExp
  have hMem2 : user_id ∈ cfg.debugUserIds := by simpa using hMem
  simp [verify_location_handler, get_verify_token, hCache, hGet, strFalsy,
    hTok, hUid, expiryElapsed, pyTruthyNum, hngt, hRate, hDbg, hMem2,
    withAuthorizedUser]

/-- Witness for C10 (amended): the debug user `U` is accepted at 1 km with
accuracy 999 m under the in-memory backend. -/
theorem c10_debug_bypass_authorizes_witness :
    (cfgDebugMemory.cacheEnabled = false ∧ cfgDebugMemory.debugMode = true ∧
      cfgDebugMemory.debugUserIds.contains "U" = true ∧
      ¬(distOne 25 121 ≤ cfgDebugMemory.maxDistKm)) ∧
    verify_location_handler cfgDebugMemory distOne 10 (some "T")
        (some ⟨some 25, some 121, some 999⟩) "o1" "c1" c2Initial =
      .ok (.authorized, true,
        build_open_close_template cfgDebugMemory 10
          (withAuthorizedUser (is_rate_limited 10 "U" c2Initial).2 "U" (10 + cfgDebugMemory.locationTtl))
          "U" "o1" "c1") :=
  ⟨⟨rfl, rfl, rfl, by decide⟩,
   c10_debug_bypass_authorizes cfgDebugMemory distOne 10 "T" "U" 1000 25 121
     999 c2Initial "o1" "c1" rfl rfl rfl (by decide) (by decide) (by decide)
     (by decide) (by decide)⟩

end LineBot
